import Mathlib

/-!
Shallow embedding of the healthcare-claims dashboard pipeline
(src/fraud_dashboard.py): the data-loading derivations of `load_data`
(day-first date parsing, claim duration, gender/race remapping,
chronic-condition flattening), the four sidebar filters of `main`
(date range, provider, fraud status, claim type) and the aggregations
behind the rendered panels (KPI counts and means, value-count
distributions, the per-provider risk matrix with its colour tiers).

A dataframe is a `List Row`; a missing value (NaN/NaT) is `none`;
currency and percentages are exact rationals.
-/

namespace FraudDashboard

/-- One loaded dataset row, after the `load_data` derivations: dates are
parsed to day numbers (`none` = NaT), gender/race are the remapped labels
(`none` = unmapped code), amounts are rationals. -/
structure Row where
  provider : String
  claimType : String
  potentialFraud : String
  attendingDate : Option Nat
  claimEndDate : Option Nat
  claimDuration : Option Int
  inscClaimAmtReimbursed : ℚ
  lengthOfStay : Option ℚ
  gender : Option String
  race : Option String
  chronicConditionList : Option String
deriving DecidableEq

/-- One raw CSV row before the `load_data` derivations: dates still strings,
gender and race still integer codes. -/
structure RawRow where
  provider : String
  claimType : String
  potentialFraud : String
  attendingDateStr : String
  claimEndDateStr : String
  inscClaimAmtReimbursed : ℚ
  lengthOfStay : Option ℚ
  genderCode : Int
  raceCode : Int
  chronicConditionList : Option String
deriving DecidableEq

/-- Python `str.split(sep)` for a one-character separator, over the char
list: every separator occurrence cuts, empty pieces are kept. -/
def splitCharAux (sep : Char) : List Char → List Char → List String
  | [], cur => [String.mk cur.reverse]
  | c :: cs, cur =>
      if c = sep then String.mk cur.reverse :: splitCharAux sep cs []
      else splitCharAux sep cs (c :: cur)

/-- Python `str.split(sep)` on a string, single-character separator. -/
def splitChar (sep : Char) (s : String) : List String :=
  splitCharAux sep s.toList []

/-- The ASCII whitespace Python `str.strip()` removes. -/
def isSpaceChar (c : Char) : Bool :=
  c = ' ' || c = '\t' || c = '\n' || c = '\r' || c = '\x0b' || c = '\x0c'

/-- Python `str.strip()`: drop leading and trailing whitespace. -/
def stripStr (s : String) : String :=
  String.mk (((s.toList.dropWhile isSpaceChar).reverse.dropWhile isSpaceChar).reverse)

/-- Numeric value of a decimal digit character, `none` otherwise. -/
def digitVal (c : Char) : Option Nat :=
  if c.isDigit then some (c.toNat - 48) else none

/-- A decimal string of digits to a natural number; `none` when empty or
any character is not a digit. -/
def parseNatStr (s : String) : Option Nat :=
  match s.toList with
  | [] => none
  | cs =>
      cs.foldl
        (fun acc c =>
          match acc, digitVal c with
          | some n, some d => some (n * 10 + d)
          | _, _ => none)
        (some 0)

/-- Gregorian leap-year test. -/
def isLeap (y : Nat) : Bool := (y % 4 == 0 && y % 100 != 0) || y % 400 == 0

/-- Number of days in month `m` of year `y`. -/
def daysInMonth (y m : Nat) : Nat :=
  if m == 2 then (if isLeap y then 29 else 28)
  else if m == 4 || m == 6 || m == 9 || m == 11 then 30
  else 31

/-- Proleptic-Gregorian day number of the civil date `y-m-d` (valid for
`y ≥ 1`, `1 ≤ m ≤ 12`); consecutive calendar days get consecutive numbers,
which is all the pipeline uses of dates. -/
def rataDie (y m d : Nat) : Nat :=
  let yy := if m ≤ 2 then y - 1 else y
  let era := yy / 400
  let yoe := yy % 400
  let mp := (m + 9) % 12
  let doy := (153 * mp + 2) / 5 + d - 1
  let doe := yoe * 365 + yoe / 4 - yoe / 100 + doy
  era * 146097 + doe

/-- Day-first date parsing, embedding
`pd.to_datetime(col, dayfirst=True, errors='coerce')` on the dataset's
DD/MM/YYYY date strings: "01/02/2020" is February 1, 2020; an unparseable
value becomes `none` (NaT) rather than raising. -/
def parseDateDayFirst (s : String) : Option Nat :=
  match splitChar '/' s with
  | [ds, ms, ys] =>
    match parseNatStr ds, parseNatStr ms, parseNatStr ys with
    | some d, some m, some y =>
        if 1 ≤ y ∧ 1 ≤ m ∧ m ≤ 12 ∧ 1 ≤ d ∧ d ≤ daysInMonth y m then
          some (rataDie y m d)
        else none
    | _, _, _ => none
  | _ => none

/-- Embeds `df['ClaimDuration'] = (df['ClaimEndDate'] - df['AttendingDate']).dt.days + 1`:
defined only when both dates parsed; NaT propagates to a missing duration. -/
def claimDurationOf : Option Nat → Option Nat → Option Int
  | some a, some e => some ((e : Int) - (a : Int) + 1)
  | _, _ => none

/-- Embeds `df['Gender'].map({1: 'Male', 2: 'Female'})`: unmapped codes
become missing (`none`), pandas `Series.map` semantics. -/
def genderMap (g : Int) : Option String :=
  if g = 1 then some "Male" else if g = 2 then some "Female" else none

/-- Embeds `df['Race'].map({1: 'White', 2: 'Black', 3: 'Asian', 4: 'Other', 5: 'Other'})`. -/
def raceMap (r : Int) : Option String :=
  if r = 1 then some "White"
  else if r = 2 then some "Black"
  else if r = 3 then some "Asian"
  else if r = 4 then some "Other"
  else if r = 5 then some "Other"
  else none

/-- The per-row part of `load_data`: parse both dates, derive the duration,
remap gender and race. -/
def loadRow (r : RawRow) : Row :=
  let att := parseDateDayFirst r.attendingDateStr
  let en := parseDateDayFirst r.claimEndDateStr
  { provider := r.provider
    claimType := r.claimType
    potentialFraud := r.potentialFraud
    attendingDate := att
    claimEndDate := en
    claimDuration := claimDurationOf att en
    inscClaimAmtReimbursed := r.inscClaimAmtReimbursed
    lengthOfStay := r.lengthOfStay
    gender := genderMap r.genderCode
    race := raceMap r.raceCode
    chronicConditionList := r.chronicConditionList }

/-- Embeds the `all_conditions` loop of `load_data`: for each row whose
condition list is present (`dropna`), split on commas, strip each token,
and extend one flat accumulator list. -/
def allConditions (df : List Row) : List String :=
  df.foldl
    (fun acc r =>
      match r.chronicConditionList with
      | some s => acc ++ (splitChar ',' s).map stripStr
      | none => acc)
    []

/-- Embeds the date-range filter
`df[(df['AttendingDate'] >= start_date) & (df['AttendingDate'] <= end_date)]`;
a NaT attending date compares false on both sides, so such rows are dropped. -/
def dateRangeFilter (startDate endDate : Nat) (df : List Row) : List Row :=
  df.filter (fun r =>
    match r.attendingDate with
    | some d => decide (startDate ≤ d) && decide (d ≤ endDate)
    | none => false)

/-- Embeds `df['AttendingDate'].min()`: pandas `min` skips NaT, and is NaT
(`none`) when no date is present. -/
def minAttendingDate (df : List Row) : Option Nat :=
  (df.filterMap Row.attendingDate).min?

/-- Embeds `df['AttendingDate'].max()`, skipping NaT. -/
def maxAttendingDate (df : List Row) : Option Nat :=
  (df.filterMap Row.attendingDate).max?

/-- Embeds the provider filter: the sentinel "All Providers" is a no-op,
otherwise keep the rows of the one selected provider. -/
def providerFilter (sel : String) (df : List Row) : List Row :=
  if sel = "All Providers" then df else df.filter (fun r => r.provider == sel)

/-- Embeds `fraud_mapping = {'Potential Fraud': 'Yes', 'No Fraud': 'No'}`
looked up with an `in` guard: labels outside the mapping contribute nothing. -/
def fraudMapping (s : String) : Option String :=
  if s = "Potential Fraud" then some "Yes" else if s = "No Fraud" then some "No" else none

/-- Embeds the fraud-status filter: when "All Claims" is not among the
selected labels, map the labels through `fraudMapping` and keep the rows
whose `PotentialFraud` is in the mapped set (`Series.isin`). -/
def fraudStatusFilter (sel : List String) (df : List Row) : List Row :=
  if sel.contains "All Claims" then df
  else df.filter (fun r => (sel.filterMap fraudMapping).contains r.potentialFraud)

/-- Embeds the claim-type filter guarded by `if claim_types:` — an empty
selection is falsy in Python, so the filter step is skipped entirely. -/
def claimTypeFilter (sel : List String) (df : List Row) : List Row :=
  if sel.isEmpty then df
  else df.filter (fun r => sel.contains r.claimType)

/-- Embeds `total_claims = len(df_filtered)`. -/
def totalClaims (df : List Row) : Nat := df.length

/-- Embeds `fraud_count = len(df_filtered[df_filtered['PotentialFraud'] == 'Yes'])`. -/
def fraudCount (df : List Row) : Nat :=
  (df.filter (fun r => r.potentialFraud == "Yes")).length

/-- Embeds `fraud_percentage = (fraud_count / total_claims * 100) if total_claims > 0 else 0`. -/
def fraudPercentage (df : List Row) : ℚ :=
  if 0 < totalClaims df then (fraudCount df : ℚ) / (totalClaims df : ℚ) * 100 else 0

/-- Mean of a list of rationals, `none` on the empty list: NaN is what
pandas `Series.mean()` returns for an all-missing column. -/
def listMean (xs : List ℚ) : Option ℚ :=
  if xs.isEmpty then none else some (xs.sum / (xs.length : ℚ))

/-- Embeds `avg_claim_amount = df_filtered['InscClaimAmtReimbursed'].mean()`. -/
def avgClaimAmount (df : List Row) : Option ℚ :=
  listMean (df.map Row.inscClaimAmtReimbursed)

/-- Embeds `avg_length_of_stay = df_filtered['LengthOfStay'].mean()`
(pandas mean skips missing values). -/
def avgLengthOfStay (df : List Row) : Option ℚ :=
  listMean (df.filterMap Row.lengthOfStay)

/-- The distinct values of a list in first-encounter order, the category
order pandas `value_counts` uses to break count ties. -/
def firstUniques : List String → List String
  | [] => []
  | x :: xs => x :: firstUniques (xs.filter (fun y => y != x))
termination_by l => l.length
decreasing_by
  simp only [List.length_cons]
  exact Nat.lt_succ_of_le (List.length_filter_le _ _)

/-- Embeds `Series.value_counts()`: one `(category, count)` pair per
distinct present value, sorted by count descending (stable, so ties keep
first-encounter order). Missing values were already dropped by the caller. -/
def valueCounts (xs : List String) : List (String × Nat) :=
  ((firstUniques xs).map (fun v => (v, xs.count v))).mergeSort
    (fun a b => decide (b.2 ≤ a.2))

/-- Embeds `value_counts()` on a column with missing values: pandas drops
NaN (`dropna=True` default) before counting. -/
def valueCountsOpt (xs : List (Option String)) : List (String × Nat) :=
  valueCounts (xs.filterMap id)

/-- Embeds `dist.index[0]` / `dist.iloc[0]` on a value-count distribution:
the top category-count pair, which exists only when the distribution is
nonempty — on an empty distribution Python raises IndexError, here `none`. -/
def topCategory (vc : List (String × Nat)) : Option (String × Nat) :=
  vc.head?

/-- Round to two decimals, ties to even — the semantics of
`DataFrame.round(2)` (numpy half-even rounding). -/
def rnd2 (q : ℚ) : ℚ :=
  let n : Int := ⌊q * 100⌋
  let f : ℚ := q * 100 - (n : ℚ)
  let r : Int :=
    if f < 1 / 2 then n
    else if 1 / 2 < f then n + 1
    else if n % 2 = 0 then n else n + 1
  (r : ℚ) / 100

/-- One row of the provider risk matrix, the five aggregate columns
`Fraud_Rate_%`, `Avg_Claim_$`, `Total_Claims_$`, `Claim_Count`, `Avg_LOS_days`. -/
structure ProviderStats where
  provider : String
  fraudRatePct : ℚ
  avgClaim : Option ℚ
  totalClaim : ℚ
  claimCount : Nat
  avgLOS : Option ℚ
deriving DecidableEq

/-- The aggregates of one provider group, embedding the
`df_filtered.groupby('Provider').agg(...)` row: fraud rate is
`(x == 'Yes').mean() * 100`, the means skip missing values, and every
numeric column passes through `.round(2)`. -/
def providerStatsRow (df : List Row) (p : String) : ProviderStats :=
  let g := df.filter (fun r => r.provider == p)
  { provider := p
    fraudRatePct :=
      rnd2 (((g.filter (fun r => r.potentialFraud == "Yes")).length : ℚ) / (g.length : ℚ) * 100)
    avgClaim := (listMean (g.map Row.inscClaimAmtReimbursed)).map rnd2
    totalClaim := rnd2 (g.map Row.inscClaimAmtReimbursed).sum
    claimCount := g.length
    avgLOS := (listMean (g.filterMap Row.lengthOfStay)).map rnd2 }

/-- The provider group keys: `groupby` sorts keys lexicographically
(`sort=True` default). -/
def groupKeys (df : List Row) : List String :=
  (firstUniques (df.map Row.provider)).mergeSort (fun a b => decide (a ≤ b))

/-- Embeds `provider_stats.sort_values('Fraud_Rate_%', ascending=False)`:
one aggregate row per provider, sorted by fraud rate descending. -/
def providerStats (df : List Row) : List ProviderStats :=
  ((groupKeys df).map (providerStatsRow df)).mergeSort
    (fun a b => decide (b.fraudRatePct ≤ a.fraudRatePct))

/-- Embeds `provider_stats.head(15)`: the displayed risk panel. -/
def providerPanel (df : List Row) : List ProviderStats :=
  (providerStats df).take 15

/-- Embeds `color_fraud_rate`: red above 30, orange above 15, else green —
the risk-tier colouring of the `Fraud_Rate_%` column. -/
def colorFraudRate (v : ℚ) : String :=
  if v > 30 then "#e74c3c" else if v > 15 then "#f39c12" else "#2ecc71"

/-- A row with only the categorical fields set, for concrete test datasets. -/
def mkRow (p ct pf : String) : Row :=
  { provider := p
    claimType := ct
    potentialFraud := pf
    attendingDate := none
    claimEndDate := none
    claimDuration := none
    inscClaimAmtReimbursed := 0
    lengthOfStay := none
    gender := none
    race := none
    chronicConditionList := none }

/-- A two-row dataset used to instantiate the filter and KPI theorems. -/
def wdf2 : List Row := [mkRow "P1" "Inpatient" "Yes", mkRow "P2" "Outpatient" "No"]

/-- The raw row of the spec's worked duration example: attending
"01/02/2020", claim end "05/02/2020". -/
def exampleRaw : RawRow :=
  { provider := "PRV1"
    claimType := "Inpatient"
    potentialFraud := "No"
    attendingDateStr := "01/02/2020"
    claimEndDateStr := "05/02/2020"
    inscClaimAmtReimbursed := 0
    lengthOfStay := none
    genderCode := 1
    raceCode := 1
    chronicConditionList := none }

theorem foldl_conditions_eq (df : List Row) (acc : List String) :
    df.foldl
      (fun acc r =>
        match r.chronicConditionList with
        | some s => acc ++ (splitChar ',' s).map stripStr
        | none => acc)
      acc
    = acc ++ df.flatMap
        (fun r =>
          match r.chronicConditionList with
          | some s => (splitChar ',' s).map stripStr
          | none => []) := by
  induction df generalizing acc with
  | nil => simp
  | cons r t ih => cases h : r.chronicConditionList <;> simp [h, ih]

/-- C1: on an empty filtered subset the KPI percentage is zero, the means
are NaN (a defined value that formats, not an exception), every
value-count distribution and the provider panel are empty — but the
top-category accesses the dashboard performs on the claim-type and race
distributions (`dist.index[0]`, `dist.iloc[0]` at lines 390-391 and
447-448) have no value on an empty distribution, so the Python code
raises IndexError there instead of degrading. -/
theorem c1_empty_subset_aggregations :
    fraudPercentage [] = 0
  ∧ avgClaimAmount [] = none
  ∧ avgLengthOfStay [] = none
  ∧ valueCounts (List.map Row.potentialFraud []) = []
  ∧ valueCounts (List.map Row.claimType []) = []
  ∧ valueCountsOpt (List.map Row.gender []) = []
  ∧ valueCountsOpt (List.map Row.race []) = []
  ∧ providerPanel [] = []
  ∧ topCategory (valueCounts (List.map Row.claimType [])) = none
  ∧ topCategory (valueCountsOpt (List.map Row.race [])) = none := by
  simp [fraudPercentage, totalClaims, avgClaimAmount, avgLengthOfStay, listMean,
    valueCounts, valueCountsOpt, firstUniques, providerPanel, providerStats,
    groupKeys, topCategory]

/-- C2: the fraud count is the number of rows whose fraud flag is "Yes",
and the fraud percentage is count/total*100 for a nonempty subset and 0
for an empty one. -/
theorem c2_fraud_count_percentage (df : List Row) :
    fraudCount df = df.countP (fun r => r.potentialFraud == "Yes")
  ∧ (0 < totalClaims df →
      fraudPercentage df = (fraudCount df : ℚ) / (totalClaims df : ℚ) * 100)
  ∧ (totalClaims df = 0 → fraudPercentage df = 0) := by
  refine ⟨(List.countP_eq_length_filter _ _).symm, fun h => ?_, fun h => ?_⟩
  · simp [fraudPercentage, h]
  · simp [fraudPercentage, h]

theorem c2_fraud_count_percentage_witness :
    fraudPercentage wdf2 = (fraudCount wdf2 : ℚ) / (totalClaims wdf2 : ℚ) * 100 :=
  (c2_fraud_count_percentage wdf2).2.1 (by decide)

/-- C3: the derived claim duration is the inclusive day count
(end - attending + 1) whenever both dates parse day-first, is missing
whenever either date fails to parse, and on the worked example
("01/02/2020" to "05/02/2020", day-first) it equals 5. -/
theorem c3_claim_duration (raw : RawRow) :
    ((parseDateDayFirst raw.attendingDateStr = none
        ∨ parseDateDayFirst raw.claimEndDateStr = none) →
      (loadRow raw).claimDuration = none)
  ∧ (∀ a e : Nat, parseDateDayFirst raw.attendingDateStr = some a →
      parseDateDayFirst raw.claimEndDateStr = some e →
      (loadRow raw).claimDuration = some ((e : ℤ) - (a : ℤ) + 1))
  ∧ (loadRow exampleRaw).claimDuration = some 5 := by
  have hproj : (loadRow raw).claimDuration
      = claimDurationOf (parseDateDayFirst raw.attendingDateStr)
          (parseDateDayFirst raw.claimEndDateStr) := rfl
  refine ⟨fun h => ?_, fun a e ha he => ?_, by decide⟩
  · rw [hproj]
    rcases h with h | h
    · rw [h]; cases parseDateDayFirst raw.claimEndDateStr <;> rfl
    · rw [h]; cases parseDateDayFirst raw.attendingDateStr <;> rfl
  · rw [hproj, ha, he]; rfl

theorem c3_claim_duration_witness :
    (loadRow exampleRaw).claimDuration = some ((737765 : ℤ) - (737761 : ℤ) + 1) :=
  (c3_claim_duration exampleRaw).2.1 737761 737765 (by decide) (by decide)

/-- C4: gender codes 1 and 2 map to "Male"/"Female" and every other code
to missing; race codes 1..5 map to "White"/"Black"/"Asian"/"Other"/"Other"
(4 and 5 collapse) and every other code to missing. -/
theorem c4_gender_race_remap (g r : Int) :
    genderMap 1 = some "Male" ∧ genderMap 2 = some "Female"
  ∧ (g ≠ 1 → g ≠ 2 → genderMap g = none)
  ∧ raceMap 1 = some "White" ∧ raceMap 2 = some "Black" ∧ raceMap 3 = some "Asian"
  ∧ raceMap 4 = some "Other" ∧ raceMap 5 = some "Other"
  ∧ (r ≠ 1 → r ≠ 2 → r ≠ 3 → r ≠ 4 → r ≠ 5 → raceMap r = none) := by
  refine ⟨by decide, by decide, fun h1 h2 => ?_, by decide, by decide, by decide,
    by decide, by decide, fun h1 h2 h3 h4 h5 => ?_⟩
  · simp [genderMap, h1, h2]
  · simp [raceMap, h1, h2, h3, h4, h5]

theorem c4_gender_race_remap_witness :
    genderMap 3 = none ∧ raceMap 7 = none :=
  ⟨(c4_gender_race_remap 3 7).2.2.1 (by decide) (by decide),
   (c4_gender_race_remap 3 7).2.2.2.2.2.2.2.2
     (by decide) (by decide) (by decide) (by decide) (by decide)⟩

/-- C5: the flat condition sequence is the row-order concatenation of the
comma-split, per-token-stripped tokens of each present condition list
(missing lists contribute nothing, duplicates retained), and the worked
example "Diabetes, Hypertension,Diabetes" yields its three occurrences. -/
theorem c5_condition_flattening (df : List Row) :
    allConditions df
      = df.flatMap
          (fun r =>
            match r.chronicConditionList with
            | some s => (splitChar ',' s).map stripStr
            | none => [])
  ∧ (splitChar ',' "Diabetes, Hypertension,Diabetes").map stripStr
      = ["Diabetes", "Hypertension", "Diabetes"] := by
  refine ⟨?_, by decide⟩
  simpa [allConditions] using foldl_conditions_eq df []

/-- C9: a nonempty claim-type selection keeps exactly the rows whose claim
type is selected; the empty selection is falsy in Python and the filter
step is skipped, excluding no rows. -/
theorem c9_claim_type_filter (sel : List String) (df : List Row) :
    (sel = [] → claimTypeFilter sel df = df)
  ∧ (sel ≠ [] → claimTypeFilter sel df = df.filter (fun r => sel.contains r.claimType)) := by
  constructor
  · intro h; simp [claimTypeFilter, h]
  · intro h; simp [claimTypeFilter, List.isEmpty_iff, h]

theorem c9_claim_type_filter_witness :
    claimTypeFilter ["Inpatient"] wdf2
      = wdf2.filter (fun r => ["Inpatient"].contains r.claimType) :=
  (c9_claim_type_filter ["Inpatient"] wdf2).2 (by decide)

/-- C10: an empty fraud-status selection does not contain "All Claims", so
the filter keeps only rows whose flag lies in the empty mapped set: the
result is always the empty subset, the opposite of the claim-type
filter's empty-selection no-op. -/
theorem c10_empty_fraud_selection (df : List Row) :
    fraudStatusFilter [] df = [] := by
  simp [fraudStatusFilter]

theorem mem_of_mem_firstUniques {v : String} {xs : List String}
    (h : v ∈ firstUniques xs) : v ∈ xs := by
  induction xs using firstUniques.induct with
  | case1 => simp [firstUniques] at h
  | case2 x t ih =>
    simp only [firstUniques] at h
    rcases List.mem_cons.mp h with h | h
    · exact h ▸ List.mem_cons_self x t
    · exact List.mem_cons_of_mem _ (List.mem_of_mem_filter (ih h))

theorem length_filter_bne (x : String) (xs : List String) :
    (xs.filter (fun y => y != x)).length + xs.count x = xs.length := by
  induction xs with
  | nil => simp
  | cons a t ih =>
    by_cases h : a = x
    · subst h
      simp only [List.filter_cons, bne_self_eq_false, Bool.false_eq_true, if_false,
        List.count_cons_self, List.length_cons]
      omega
    · simp only [List.filter_cons, bne_iff_ne, ne_eq, h, not_false_eq_true, if_true,
        List.length_cons, List.count_cons_of_ne (Ne.symm h)]
      omega

theorem sum_counts_firstUniques (xs : List String) :
    ((firstUniques xs).map (fun v => xs.count v)).sum = xs.length := by
  induction xs using firstUniques.induct with
  | case1 => simp [firstUniques]
  | case2 x t ih =>
    have hcong : (firstUniques (t.filter (fun y => y != x))).map (fun v => (x :: t).count v)
        = (firstUniques (t.filter (fun y => y != x))).map
            (fun v => (t.filter (fun y => y != x)).count v) := by
      refine List.map_congr_left (fun v hv => ?_)
      have hvf := mem_of_mem_firstUniques hv
      have hvx : v ≠ x := by simpa [bne_iff_ne] using List.of_mem_filter hvf
      rw [List.count_cons_of_ne hvx,
        ← List.count_filter (p := fun y => y != x) (by simpa [bne_iff_ne] using hvx)]
    simp only [firstUniques, List.map_cons, List.sum_cons]
    rw [hcong, ih, List.count_cons_self]
    have := length_filter_bne x t
    simp only [List.length_cons]
    omega

theorem sum_valueCounts (xs : List String) :
    ((valueCounts xs).map Prod.snd).sum = xs.length := by
  have hperm : ((valueCounts xs).map Prod.snd).Perm
      (((firstUniques xs).map (fun v => (v, xs.count v))).map Prod.snd) :=
    List.Perm.map _ (List.mergeSort_perm _ _)
  rw [hperm.sum_eq, List.map_map]
  simpa [Function.comp] using sum_counts_firstUniques xs

/-- C6 counterexample: `value_counts` drops missing values, so for a
one-row subset whose gender code was unmapped the gender distribution's
counts sum to 0, not to the filtered row count 1. -/
theorem c6_counterexample :
    ((valueCountsOpt ([mkRow "P1" "Inpatient" "No"].map Row.gender)).map Prod.snd).sum
      ≠ ([mkRow "P1" "Inpatient" "No"] : List Row).length := by
  simp [valueCountsOpt, valueCounts, firstUniques, mkRow]

/-- C6 amended: each distribution's counts sum to the number of rows whose
value in that column is present; the fraud-status and claim-type columns
are always present so those two sum to the filtered row count, while the
gender and race distributions sum to the count of rows whose code was in
the mapped set (equal to the row count only when no code was unmapped). -/
theorem c6_amended (df : List Row) :
    ((valueCounts (df.map Row.potentialFraud)).map Prod.snd).sum = df.length
  ∧ ((valueCounts (df.map Row.claimType)).map Prod.snd).sum = df.length
  ∧ ((valueCountsOpt (df.map Row.gender)).map Prod.snd).sum
      = ((df.map Row.gender).filterMap id).length
  ∧ ((valueCountsOpt (df.map Row.race)).map Prod.snd).sum
      = ((df.map Row.race).filterMap id).length := by
  refine ⟨?_, ?_, sum_valueCounts _, sum_valueCounts _⟩
  · simpa using sum_valueCounts (df.map Row.potentialFraud)
  · simpa using sum_valueCounts (df.map Row.claimType)

/-- C8 counterexample: a row whose attending date failed to parse (NaT)
compares false against both endpoints, so the date filter over the
dataset's own [min, max] range drops it while no date filter keeps it. -/
theorem c8_counterexample :
    minAttendingDate [{ mkRow "P1" "Inpatient" "No" with attendingDate := some 100 },
        mkRow "P2" "Inpatient" "No"] = some 100
  ∧ maxAttendingDate [{ mkRow "P1" "Inpatient" "No" with attendingDate := some 100 },
        mkRow "P2" "Inpatient" "No"] = some 100
  ∧ (dateRangeFilter 100 100 [{ mkRow "P1" "Inpatient" "No" with attendingDate := some 100 },
        mkRow "P2" "Inpatient" "No"]).length
      ≠ ([{ mkRow "P1" "Inpatient" "No" with attendingDate := some 100 },
        mkRow "P2" "Inpatient" "No"] : List Row).length := by
  decide

/-- C8 amended: when every row's attending date parsed, filtering with the
dataset's minimum and maximum attending dates keeps every row, the same
row count as applying no date filter. -/
theorem c8_amended (df : List Row) (m M : Nat)
    (hall : ∀ r ∈ df, (Row.attendingDate r).isSome)
    (hm : minAttendingDate df = some m)
    (hM : maxAttendingDate df = some M) :
    (dateRangeFilter m M df).length = df.length := by
  have hmin := (List.min?_eq_some_iff (fun a => le_refl a) (fun a b => min_choice a b)
      (fun a b c => le_min_iff)).mp hm
  have hmax := (List.max?_eq_some_iff (fun a => le_refl a) (fun a b => max_choice a b)
      (fun a b c => max_le_iff)).mp hM
  have heq : dateRangeFilter m M df = df := by
    refine List.filter_eq_self.mpr (fun r hr => ?_)
    cases hatt : r.attendingDate with
    | none => exact absurd (hall r hr) (by simp [hatt])
    | some d =>
      have hd : d ∈ df.filterMap Row.attendingDate :=
        List.mem_filterMap.mpr ⟨r, hr, hatt⟩
      have h1 : m ≤ d := hmin.2 d hd
      have h2 : d ≤ M := hmax.2 d hd
      simp [hatt, h1, h2]
  rw [heq]

theorem c8_amended_witness :
    (dateRangeFilter 5 9 [{ mkRow "P1" "Inpatient" "No" with attendingDate := some 5 },
        { mkRow "P2" "Outpatient" "Yes" with attendingDate := some 9 }]).length
      = ([{ mkRow "P1" "Inpatient" "No" with attendingDate := some 5 },
        { mkRow "P2" "Outpatient" "Yes" with attendingDate := some 9 }] : List Row).length :=
  c8_amended _ 5 9 (by decide) (by decide) (by decide)

theorem rnd2_eq_of_floor (q : ℚ) (n : ℤ) (h1 : (n : ℚ) ≤ q * 100)
    (h2 : q * 100 < (n : ℚ) + 1) (h3 : q * 100 - (n : ℚ) < 1 / 2) :
    rnd2 q = (n : ℚ) / 100 := by
  have hf : ⌊q * 100⌋ = n := Int.floor_eq_iff.mpr ⟨h1, h2⟩
  simp only [rnd2, hf]
  rw [if_pos h3]

theorem rateLe_trans (a b c : ProviderStats)
    (h1 : (decide (b.fraudRatePct ≤ a.fraudRatePct)) = true)
    (h2 : (decide (c.fraudRatePct ≤ b.fraudRatePct)) = true) :
    (decide (c.fraudRatePct ≤ a.fraudRatePct)) = true := by
  simp only [decide_eq_true_eq] at h1 h2 ⊢
  exact le_trans h2 h1

theorem rateLe_total (a b : ProviderStats) :
    ((decide (b.fraudRatePct ≤ a.fraudRatePct))
      || (decide (a.fraudRatePct ≤ b.fraudRatePct))) = true := by
  simpa using le_total b.fraudRatePct a.fraudRatePct

/-- The dataset of the spec's worked provider example: one provider with
10 claims, 4 of them fraud. -/
def exTenDf : List Row :=
  List.replicate 6 (mkRow "PRV" "Inpatient" "No")
    ++ List.replicate 4 (mkRow "PRV" "Inpatient" "Yes")

/-- One provider with 20 claims, 3 of them fraud: fraud rate exactly 15. -/
def c7BoundaryDf : List Row :=
  List.replicate 17 (mkRow "PRV" "Inpatient" "No")
    ++ List.replicate 3 (mkRow "PRV" "Inpatient" "Yes")

/-- One provider with 3 claims, 1 of them fraud: raw rate 100/3. -/
def c7ThirdDf : List Row :=
  List.replicate 2 (mkRow "PRV" "Inpatient" "No")
    ++ List.replicate 1 (mkRow "PRV" "Inpatient" "Yes")

/-- C7 counterexample: at a fraud rate of exactly 15 percent (20 claims, 3
fraud) the code colours the row green (low tier), not the orange medium
tier the claim's "15-30 percent is medium" assigns to 15; and a stored
fraud rate is the two-decimal rounding, so for 3 claims with 1 fraud it
is 33.33, not (1/3)*100. -/
theorem c7_counterexample :
    (providerStatsRow c7BoundaryDf "PRV").fraudRatePct = 15
  ∧ colorFraudRate 15 = "#2ecc71"
  ∧ colorFraudRate 15 ≠ "#f39c12"
  ∧ (providerStatsRow c7ThirdDf "PRV").fraudRatePct ≠ (1 : ℚ) / 3 * 100 := by
  have hb1 : ((c7BoundaryDf.filter (fun r => r.provider == "PRV")).filter
      (fun r => r.potentialFraud == "Yes")).length = 3 := by decide
  have hb2 : (c7BoundaryDf.filter (fun r => r.provider == "PRV")).length = 20 := by decide
  have hbp : (providerStatsRow c7BoundaryDf "PRV").fraudRatePct
      = rnd2 ((((c7BoundaryDf.filter (fun r => r.provider == "PRV")).filter
          (fun r => r.potentialFraud == "Yes")).length : ℚ)
        / ((c7BoundaryDf.filter (fun r => r.provider == "PRV")).length : ℚ) * 100) := rfl
  have ht1 : ((c7ThirdDf.filter (fun r => r.provider == "PRV")).filter
      (fun r => r.potentialFraud == "Yes")).length = 1 := by decide
  have ht2 : (c7ThirdDf.filter (fun r => r.provider == "PRV")).length = 3 := by decide
  have htp : (providerStatsRow c7ThirdDf "PRV").fraudRatePct
      = rnd2 ((((c7ThirdDf.filter (fun r => r.provider == "PRV")).filter
          (fun r => r.potentialFraud == "Yes")).length : ℚ)
        / ((c7ThirdDf.filter (fun r => r.provider == "PRV")).length : ℚ) * 100) := rfl
  refine ⟨?_, by norm_num [colorFraudRate], ?_, ?_⟩
  · rw [hbp, hb1, hb2]
    rw [show (((3 : ℕ) : ℚ) / ((20 : ℕ) : ℚ) * 100) = (15 : ℚ) by norm_num]
    rw [rnd2_eq_of_floor 15 1500 (by norm_num) (by norm_num) (by norm_num)]
    norm_num
  · rw [show colorFraudRate 15 = "#2ecc71" by norm_num [colorFraudRate]]
    decide
  · rw [htp, ht1, ht2]
    rw [show (((1 : ℕ) : ℚ) / ((3 : ℕ) : ℚ) * 100) = (100 / 3 : ℚ) by norm_num]
    rw [rnd2_eq_of_floor (100 / 3) 3333 (by norm_num) (by norm_num) (by norm_num)]
    norm_num

/-- C7 amended: every displayed risk-panel row's fraud rate equals the
two-decimal rounding of (provider fraud rows / provider rows * 100); the
panel is sorted by fraud rate descending and shows at most 15 rows; the
tier partition is red (high) strictly above 30, orange (medium) on the
half-open interval 15 < rate ≤ 30, and green (low) at and below 15 —
exactly 15 is low; the worked example (10 claims, 4 fraud) reports a
fraud rate of 40.0 and the high (red) tier. -/
theorem c7_amended (df : List Row) :
    (∀ s ∈ providerPanel df,
      s.fraudRatePct
        = rnd2 ((((df.filter (fun r => r.provider == s.provider)).filter
              (fun r => r.potentialFraud == "Yes")).length : ℚ)
            / ((df.filter (fun r => r.provider == s.provider)).length : ℚ) * 100))
  ∧ List.Pairwise (fun a b => b.fraudRatePct ≤ a.fraudRatePct) (providerPanel df)
  ∧ (providerPanel df).length ≤ 15
  ∧ (∀ v : ℚ,
      (30 < v → colorFraudRate v = "#e74c3c")
      ∧ (15 < v → v ≤ 30 → colorFraudRate v = "#f39c12")
      ∧ (v ≤ 15 → colorFraudRate v = "#2ecc71"))
  ∧ (providerStatsRow exTenDf "PRV").fraudRatePct = 40
  ∧ colorFraudRate 40 = "#e74c3c" := by
  refine ⟨?_, ?_, ?_, ?_, ?_, by norm_num [colorFraudRate]⟩
  · intro s hs
    have h1 : s ∈ providerStats df := List.mem_of_mem_take hs
    have h2 : s ∈ (groupKeys df).map (providerStatsRow df) :=
      (List.mergeSort_perm ((groupKeys df).map (providerStatsRow df)) _).mem_iff.mp h1
    rcases List.mem_map.mp h2 with ⟨p, hp, rfl⟩
    rfl
  · have hs := List.sorted_mergeSort rateLe_trans rateLe_total
      ((groupKeys df).map (providerStatsRow df))
    have hp : List.Pairwise
        (fun a b : ProviderStats => (decide (b.fraudRatePct ≤ a.fraudRatePct)) = true)
        (providerPanel df) :=
      List.Pairwise.sublist (List.take_sublist 15 _) hs
    exact hp.imp (fun h => by simpa using h)
  · exact List.length_take_le 15 (providerStats df)
  · intro v
    refine ⟨fun h => ?_, fun h1 h2 => ?_, fun h => ?_⟩
    · simp [colorFraudRate, h]
    · have h3 : ¬ (30 : ℚ) < v := not_lt.mpr h2
      simp [colorFraudRate, h3, h1]
    · have h3 : ¬ (30 : ℚ) < v := not_lt.mpr (h.trans (by norm_num))
      have h4 : ¬ (15 : ℚ) < v := not_lt.mpr h
      simp [colorFraudRate, h3, h4]
  · have hl1 : ((exTenDf.filter (fun r => r.provider == "PRV")).filter
        (fun r => r.potentialFraud == "Yes")).length = 4 := by decide
    have hl2 : (exTenDf.filter (fun r => r.provider == "PRV")).length = 10 := by decide
    have hpr : (providerStatsRow exTenDf "PRV").fraudRatePct
        = rnd2 ((((exTenDf.filter (fun r => r.provider == "PRV")).filter
            (fun r => r.potentialFraud == "Yes")).length : ℚ)
          / ((exTenDf.filter (fun r => r.provider == "PRV")).length : ℚ) * 100) := rfl
    rw [hpr, hl1, hl2]
    rw [show (((4 : ℕ) : ℚ) / ((10 : ℕ) : ℚ) * 100) = (40 : ℚ) by norm_num]
    rw [rnd2_eq_of_floor 40 4000 (by norm_num) (by norm_num) (by norm_num)]
    norm_num

/-- A one-provider, one-row dataset used to instantiate the risk-panel
theorem at a concrete input. -/
def c7WDf : List Row := [mkRow "PRV9" "Inpatient" "Yes"]

theorem c7_amended_witness :
    (providerStatsRow c7WDf "PRV9").fraudRatePct
      = rnd2 ((((c7WDf.filter (fun r => r.provider == "PRV9")).filter
            (fun r => r.potentialFraud == "Yes")).length : ℚ)
          / ((c7WDf.filter (fun r => r.provider == "PRV9")).length : ℚ) * 100)
  ∧ colorFraudRate 31 = "#e74c3c"
  ∧ colorFraudRate 20 = "#f39c12"
  ∧ colorFraudRate 10 = "#2ecc71" := by
  have hpanel : providerPanel c7WDf = [providerStatsRow c7WDf "PRV9"] := by
    simp [providerPanel, providerStats, groupKeys, firstUniques, c7WDf, mkRow]
  have hmem : providerStatsRow c7WDf "PRV9" ∈ providerPanel c7WDf := by
    rw [hpanel]; exact List.mem_singleton.mpr rfl
  exact ⟨(c7_amended c7WDf).1 (providerStatsRow c7WDf "PRV9") hmem,
    ((c7_amended c7WDf).2.2.2.1 31).1 (by norm_num),
    ((c7_amended c7WDf).2.2.2.1 20).2.1 (by norm_num) (by norm_num),
    ((c7_amended c7WDf).2.2.2.1 10).2.2 (by norm_num)⟩

end FraudDashboard
